import Mathlib

/-!
Verification development for the gemini-client-for-postgre-mcp repository.

The Python sources under `src/` are shallowly embedded below: pure helpers
become Lean functions; the stateful clients (`GeminiClient`, `MCPClient`)
become explicit state records threaded through the functions; every external
interaction (the Gemini HTTP call, the MCP session calls, `json.loads`) is
supplied as an explicit outcome/oracle argument, and the functions record the
calls they make in a `Trace`.  Exceptions become `Except`; Python truthiness
is modelled explicitly where the source relies on it.
-/

namespace GeminiMCP

/- Values produced by Python's `json.loads`.  Arrays and objects are mutual
inductives (rather than nested `List`s) so that all functions over them are
plain structural recursions.  JSON numbers are modelled as integers; the
repository's planning JSON only ever carries strings and objects. -/
mutual

inductive JValue where
  | null
  | bool (b : Bool)
  | num (n : Int)
  | str (s : String)
  | arr (xs : JArray)
  | obj (kvs : JObject)

inductive JArray where
  | nil
  | cons (hd : JValue) (tl : JArray)

inductive JObject where
  | nil
  | cons (k : String) (v : JValue) (tl : JObject)

end

/-- Embeds `d.get(key)` on a parsed JSON object: first binding wins (Python dicts
have unique keys, so the order is immaterial). -/
def JObject.lookup : JObject → String → Option JValue
  | .nil, _ => none
  | .cons k v tl, key => if k = key then some v else JObject.lookup tl key

def JObject.isEmpty : JObject → Bool
  | .nil => true
  | .cons _ _ _ => false

/-- Python `x == "lit"` for a value that came out of `json.loads` (`dict.get`
result): true only when the value is that very string. -/
def jEqStr (v : Option JValue) (lit : String) : Bool :=
  match v with
  | some (.str s) => s = lit
  | _ => false

/-- Embeds `isinstance(v, dict)` for a parsed JSON value. -/
def jIsDict : JValue → Bool
  | .obj _ => true
  | _ => false

/-- Auxiliary scan for substring containment over character lists. -/
def strContainsAux (pat : List Char) : List Char → Bool
  | [] => pat.isEmpty
  | c :: tl => pat.isPrefixOf (c :: tl) || strContainsAux pat tl

/-- Python `sub in s` (substring containment). -/
def strContains (s pat : String) : Bool :=
  strContainsAux pat.toList s.toList

/-- Python whitespace for `str.strip()` (ASCII part; the claims only exercise
ASCII whitespace). -/
def pyIsSpace (c : Char) : Bool :=
  c = ' ' || c = '\t' || c = '\n' || c = '\r' || c = '\x0b' || c = '\x0c'

/-- Python `s.strip()`. -/
def pyStrip (s : String) : String :=
  String.mk (((s.toList.dropWhile pyIsSpace).reverse.dropWhile pyIsSpace).reverse)

/-- Truthiness of an optional string (Python: `None` and `""` are falsy). -/
def pyTruthyOptStr : Option String → Bool
  | some s => !(s == "")
  | none => false

/-- One escaped character of `json.dumps` output.  (Control characters other
than the named escapes would be emitted as a numeric escape by Python; the
repository never serializes such characters, and no claim depends on them.) -/
def jsonEscapeChar (c : Char) : String :=
  if c = '\\' then "\\\\"
  else if c = '"' then "\\\""
  else if c = '\n' then "\\n"
  else if c = '\t' then "\\t"
  else if c = '\r' then "\\r"
  else if c = '\x08' then "\\b"
  else if c = '\x0c' then "\\f"
  else String.singleton c

def jsonEscape (s : String) : String :=
  String.join (s.toList.map jsonEscapeChar)

def indentSpaces (n : Nat) : String :=
  String.mk (List.replicate n ' ')

/- `json.dumps(v, ensure_ascii=False, indent=2)` as used by
`MCPClient.render_tool_result`.  `lvl` is the nesting depth; an element at
depth `lvl` is indented by `2*lvl` spaces, exactly as Python does. -/
mutual

def JValue.dumpsIndent (lvl : Nat) : JValue → String
  | .null => "null"
  | .bool b => if b then "true" else "false"
  | .num n => toString n
  | .str s => "\"" ++ jsonEscape s ++ "\""
  | .arr xs =>
      match xs with
      | .nil => "[]"
      | _ => "[\n" ++ ",\n".intercalate (JArray.dumpsIndentItems (lvl + 1) xs)
              ++ "\n" ++ indentSpaces (2 * lvl) ++ "]"
  | .obj kvs =>
      match kvs with
      | .nil => "\x7b\x7d"
      | _ => "\x7b\n" ++ ",\n".intercalate (JObject.dumpsIndentItems (lvl + 1) kvs)
              ++ "\n" ++ indentSpaces (2 * lvl) ++ "\x7d"

def JArray.dumpsIndentItems (lvl : Nat) : JArray → List String
  | .nil => []
  | .cons v tl =>
      (indentSpaces (2 * lvl) ++ JValue.dumpsIndent lvl v)
        :: JArray.dumpsIndentItems lvl tl

def JObject.dumpsIndentItems (lvl : Nat) : JObject → List String
  | .nil => []
  | .cons k v tl =>
      (indentSpaces (2 * lvl) ++ "\"" ++ jsonEscape k ++ "\": "
          ++ JValue.dumpsIndent lvl v)
        :: JObject.dumpsIndentItems lvl tl

end

/- `json.dumps(v, ensure_ascii=False)` (compact, default separators
`", "` and `": "`) as used for the tool-arguments echo in the synthesis
prompt. -/
mutual

def JValue.dumpsCompact : JValue → String
  | .null => "null"
  | .bool b => if b then "true" else "false"
  | .num n => toString n
  | .str s => "\"" ++ jsonEscape s ++ "\""
  | .arr xs => "[" ++ ", ".intercalate (JArray.dumpsCompactItems xs) ++ "]"
  | .obj kvs => "\x7b" ++ ", ".intercalate (JObject.dumpsCompactItems kvs) ++ "\x7d"

def JArray.dumpsCompactItems : JArray → List String
  | .nil => []
  | .cons v tl => JValue.dumpsCompact v :: JArray.dumpsCompactItems tl

def JObject.dumpsCompactItems : JObject → List String
  | .nil => []
  | .cons k v tl =>
      ("\"" ++ jsonEscape k ++ "\": " ++ JValue.dumpsCompact v)
        :: JObject.dumpsCompactItems tl

end

/-- Abstraction of a Python exception as seen by `ErrorHandler` and the
`except` clauses of `gemini_client.py`: its class-membership facts and its
`str()` rendering. -/
structure PyExc where
  isConnectionError : Bool
  isTimeoutError : Bool
  pyStr : String
  typeName : String

/-- Embeds `GeminiError` from `src/gemini_client.py`: a `@dataclass` exception with
`error_type` in `"network" | "rate_limit" | "auth" | "unknown"` and a
human-readable `message`.  (The `original_error` payload is only stored, never
read, and is dropped here.) -/
structure GeminiError where
  error_type : String
  message : String

/-- Embeds `MCPError` from `src/mcp_client.py`: a `@dataclass` exception with
`error_type` in `"connection" | "timeout" | "protocol" | "tool"` and a
`message`. -/
structure MCPError where
  error_type : String
  message : String

/-- How a raised `GeminiError` looks to `ErrorHandler`.  `GeminiError` is a
`@dataclass` subclass of `Exception`: the dataclass-generated `__init__` never
forwards anything to `BaseException`, and every raise site in
`gemini_client.py` constructs it with keyword arguments only, so
`BaseException.args` is the empty tuple and `str(e)` is `""` (dataclasses
override `__repr__` but not `__str__`).  It subclasses `Exception` directly,
so it is neither a `ConnectionError` nor a `TimeoutError`. -/
def GeminiError.toPyExc (_e : GeminiError) : PyExc :=
  ⟨false, false, "", "GeminiError"⟩

/-- How a raised `MCPError` looks to `ErrorHandler`; the same dataclass
reasoning as for `GeminiError.toPyExc` applies (all raise sites in
`mcp_client.py` use keyword arguments). -/
def MCPError.toPyExc (_e : MCPError) : PyExc :=
  ⟨false, false, "", "MCPError"⟩

/-- Embeds `ErrorCategory` from `src/error_handler.py`. -/
inductive ErrorCategory where
  | network
  | rate_limit
  | auth
  | mcp_connection
  | unknown
deriving DecidableEq

/-- Embeds `ErrorContext` from `src/error_handler.py`. -/
structure ErrorContext where
  category : ErrorCategory
  user_message : String
  log_message : String
  recoverable : Bool

/-- The auth-marker substring test shared by several `ErrorHandler` methods:
`"401" in s or "403" in s or "Unauthorized" in s or "Forbidden" in s`. -/
def authMarkers (s : String) : Bool :=
  strContains s "401" || strContains s "403" || strContains s "Unauthorized"
    || strContains s "Forbidden"

/-- The rate-limit substring test: `"429" in s or "Too Many Requests" in s`. -/
def rateLimitMarkers (s : String) : Bool :=
  strContains s "429" || strContains s "Too Many Requests"

/-- Embeds `ErrorHandler._classify_error`. -/
def ErrorHandler.classifyError (e : PyExc) (error_source : Option String) :
    ErrorCategory :=
  if error_source = some "mcp" || strContains e.pyStr "MCP" then .mcp_connection
  else if e.isConnectionError || e.isTimeoutError then .network
  else if rateLimitMarkers e.pyStr then .rate_limit
  else if authMarkers e.pyStr then .auth
  else .unknown

/-- Embeds `ErrorHandler.get_user_message`. -/
def ErrorHandler.get_user_message (e : PyExc) : String :=
  if e.isConnectionError || e.isTimeoutError then
    "ネットワーク接続に問題が発生しました。インターネット接続を確認してください。"
  else if rateLimitMarkers e.pyStr then
    "API のレート制限に達しました。しばらく待ってから再試行してください。"
  else if authMarkers e.pyStr then
    "API キーの認証に失敗しました。API キーが正しく設定されているか確認してください。"
  else if strContains e.pyStr "MCP" then
    "MCP サーバーへの接続に失敗しました。MCP サーバーが起動しているか確認してください。"
  else
    "予期しないエラーが発生しました。ログを確認してください。"

/-- Embeds `ErrorHandler.is_recoverable`.  Note the order: the auth substring test
runs first, then the `ConnectionError`/`TimeoutError` instance test, then the
rate-limit substrings, then the `"MCP"` substring; everything else is
non-recoverable. -/
def ErrorHandler.is_recoverable (e : PyExc) : Bool :=
  if authMarkers e.pyStr then false
  else if e.isConnectionError || e.isTimeoutError then true
  else if rateLimitMarkers e.pyStr then true
  else if strContains e.pyStr "MCP" then true
  else false

/-- Embeds `ErrorHandler.handle_error`. -/
def ErrorHandler.handle_error (e : PyExc) (context : Option String)
    (error_source : Option String) : ErrorContext :=
  let log0 := e.typeName ++ ": " ++ e.pyStr
  { category := ErrorHandler.classifyError e error_source
    user_message := ErrorHandler.get_user_message e
    log_message := match context with
      | some c => c ++ " - " ++ log0
      | none => log0
    recoverable := ErrorHandler.is_recoverable e }

/-- A conversation entry (`Message` dataclass in `gemini_client.py`). -/
structure Message where
  role : String
  content : String

/-- The mutable state of `GeminiClient`: its conversation history. -/
structure GeminiState where
  history : List Message

/-- A record of one `generate_content` request issued by the client: the full
prompt that was sent and whether the call was made with history persistence
enabled. -/
structure SendEvent where
  prompt : String
  persist : Bool

/-- Result of one `GeminiClient.send_message` call. -/
structure SendRun where
  result : Except GeminiError String
  state : GeminiState
  event : SendEvent

/-- Result of one `GeminiClient.send_json` call. -/
structure JsonRun where
  result : Except GeminiError JValue
  state : GeminiState
  event : SendEvent

/-- The prompt actually sent: `send_message` prepends `context` only when it
is truthy (a present, non-empty string). -/
def GeminiClient.fullMessage (message : String) (context : Option String) :
    String :=
  match context with
  | some c =>
      if c = "" then message
      else "[Context]\n" ++ c ++ "\n\n[User Message]\n" ++ message
  | none => message

/-- The `except` clauses of `GeminiClient.send_message`: map a raw exception
from the API call to a `GeminiError`.  (`except ConnectionError` first, then
substring tests on `str(e)`; the auth test here checks `401`, `403` and
`Unauthorized` but not `Forbidden`.)  The `message` literals mirror the
source; the `"unknown"` literal is mojibake-damaged in the source file and is
written here in its evident intended form — no claim depends on it. -/
def GeminiClient.wrapError (e : PyExc) : GeminiError :=
  if e.isConnectionError then ⟨"network", "ネットワーク接続に失敗しました"⟩
  else if rateLimitMarkers e.pyStr then ⟨"rate_limit", "API のレート制限に達しました"⟩
  else if strContains e.pyStr "401" || strContains e.pyStr "403"
      || strContains e.pyStr "Unauthorized" then
    ⟨"auth", "API キーの認証に失敗しました"⟩
  else ⟨"unknown", "予期しないエラーが発生しました"⟩

/-- Embeds `GeminiClient.send_message`.  The outcome of the underlying
`generate_content` network call is an explicit argument.  On success, when
`persist_history` is set, the original `message` (not the context-wrapped
prompt) and the response are appended to the history; on failure nothing is
appended (the exception fires before the append). -/
def GeminiClient.send_message (g : GeminiState) (message : String)
    (context : Option String) (persist_history : Bool)
    (outcome : Except PyExc String) : SendRun :=
  let full := GeminiClient.fullMessage message context
  match outcome with
  | .error e => ⟨.error (GeminiClient.wrapError e), g, ⟨full, persist_history⟩⟩
  | .ok text =>
      ⟨.ok text,
       if persist_history then
         ⟨g.history ++ [⟨"user", message⟩, ⟨"model", text⟩]⟩
       else g,
       ⟨full, persist_history⟩⟩

/-- Embeds `GeminiClient.send_json`: a `send_message` with `persist_history=False`
(and JSON response mime type) followed by `json.loads`; a parse failure is
wrapped as a `GeminiError` of type `"unknown"`.  The behaviour of
`json.loads` is passed in as the `loads` argument. -/
def GeminiClient.send_json (g : GeminiState) (message : String)
    (context : Option String) (outcome : Except PyExc String)
    (loads : String → Option JValue) : JsonRun :=
  let sr := GeminiClient.send_message g message context false outcome
  match sr.result with
  | .error e => ⟨.error e, sr.state, sr.event⟩
  | .ok text =>
      match loads text with
      | some v => ⟨.ok v, sr.state, sr.event⟩
      | none =>
          ⟨.error ⟨"unknown", "Gemini からの JSON 応答を解釈できませんでした"⟩,
           sr.state, sr.event⟩

/-- A Tool Descriptor (`mcp.types.Tool`): the fields the repository reads. -/
structure Tool where
  name : String
  description : Option String
deriving DecidableEq

/-- An MCP resource (`mcp.types.Resource`): the fields `get_context` reads. -/
structure Resource where
  name : String
  uri : String

/-- The mutable state of `MCPClient` that the embedded operations touch:
`_connected`, whether `_session` is present, and `_tool_cache`. -/
structure MCPState where
  connected : Bool
  hasSession : Bool
  tool_cache : Option (List Tool)

/-- The `data` attribute of a content block: either a Python
`bytes`/`bytearray` value, or a non-bytes value (in the `mcp.types` content
blocks this is a base64 `str`), whose `str()` is the string itself. -/
inductive BlockData where
  | binary
  | nonBinary (s : String)

/-- One content block of a `CallToolResult`, abstracted to the attribute
lookups `render_tool_result` performs: `getattr(block, "text", None)`,
`getattr(block, "data", None)`, `getattr(block, "resource", None)` (the
`String` stored for `resource` is its `str()` rendering), and `str(block)`
as the final fallback. -/
structure ContentBlock where
  text : Option String
  data : Option BlockData
  resource : Option String
  asStr : String

/-- Embeds `mcp.types.CallToolResult`: the fields the repository reads.
`structuredContent` is `dict[str, Any] | None`; a `None` or absent `content`
list is embedded as `[]` (the source guards with `result.content or []`). -/
structure CallToolResult where
  isError : Bool
  structuredContent : Option JObject
  content : List ContentBlock

/-- Result of one `MCPClient.list_tools` call: the Python return value (or
raised `MCPError`), the updated client state, and how many underlying
`session.list_tools` transport calls were issued (0 or 1). -/
structure ListToolsRun where
  result : Except MCPError (List Tool)
  state : MCPState
  transportCalls : Nat

/-- Embeds `MCPClient.list_tools`.  Not connected (or no session): log and return the
empty list without touching the transport.  Otherwise consult the cache:
fetch from the transport when the cache is empty or a refresh is forced
(raising a `"protocol"` `MCPError` and leaving the cache untouched when the
transport call fails), and serve from the cache otherwise.  The `.getD []`
in the cached branch is only evaluated when the cache is `some` (the guard
just tested `isNone`). -/
def MCPClient.list_tools (m : MCPState) (force_refresh : Bool)
    (outcome : Except PyExc (List Tool)) : ListToolsRun :=
  if !m.connected || !m.hasSession then ⟨.ok [], m, 0⟩
  else if m.tool_cache.isNone || force_refresh then
    match outcome with
    | .error e =>
        ⟨.error ⟨"protocol", "ツール一覧の取得に失敗しました: " ++ e.pyStr⟩, m, 1⟩
    | .ok tools => ⟨.ok tools, { m with tool_cache := some tools }, 1⟩
  else ⟨.ok (m.tool_cache.getD []), m, 0⟩

/-- Embeds `MCPClient.call_tool`: raises a `"connection"` `MCPError` when not
connected; otherwise forwards to the session, wrapping any session exception
as a `"tool"` `MCPError`. -/
def MCPClient.call_tool (m : MCPState) (name : String)
    (_arguments : Option JObject) (outcome : Except PyExc CallToolResult) :
    Except MCPError CallToolResult :=
  if !m.connected || !m.hasSession then
    .error ⟨"connection", "MCP サーバーに接続されていません"⟩
  else
    match outcome with
    | .ok r => .ok r
    | .error e =>
        .error ⟨"tool", "ツール " ++ name ++ " の実行に失敗しました: " ++ e.pyStr⟩

/-- The part of the per-block rendering after the `text`/`data` tests:
`str(resource)` when the `resource` attribute is not `None` (even when the
rendering is empty), else `str(block)`. -/
def MCPClient.renderBlockTail (b : ContentBlock) : String :=
  match b.resource with
  | some r => r
  | none => b.asStr

/-- The `data` branch of the per-block rendering: the redaction placeholder
when `data` is a `bytes`/`bytearray` (regardless of its truthiness — the
`isinstance` test comes first); else `str(data)` when `data` is truthy; else
the resource reference or the stringified block. -/
def MCPClient.renderBlockRest (b : ContentBlock) : String :=
  match b.data with
  | some .binary => "<binary data omitted>"
  | some (.nonBinary s) => if s = "" then MCPClient.renderBlockTail b else s
  | none => MCPClient.renderBlockTail b

/-- The per-block branch of `MCPClient.render_tool_result`: the block's
`text` when truthy (`getattr` misses and the empty string are falsy), else
the `data`/`resource`/fallback chain. -/
def MCPClient.renderBlock (b : ContentBlock) : String :=
  match b.text with
  | some t => if t = "" then MCPClient.renderBlockRest b else t
  | none => MCPClient.renderBlockRest b

/-- The leading `parts` entry of `render_tool_result`: the pretty-printed
structured content when it is truthy (`None` and the empty dict are falsy).
Our `JObject` values are always JSON-serializable, so the
`except (TypeError, ValueError)` fallback of the source is unreachable in
the embedding. -/
def MCPClient.structuredParts (r : CallToolResult) : List String :=
  match r.structuredContent with
  | some kvs => if kvs.isEmpty then [] else [JValue.dumpsIndent 0 (.obj kvs)]
  | none => []

/-- Embeds `MCPClient.render_tool_result`: the structured-content part first, then
one rendered part per content block, joined by newlines with empty pieces
skipped. -/
def MCPClient.render_tool_result (r : CallToolResult) : String :=
  let parts := MCPClient.structuredParts r ++ r.content.map MCPClient.renderBlock
  "\n".intercalate (parts.filter (fun p => !(p == "")))

/-- Embeds `MCPClient.get_context`: `None` when not connected; otherwise a summary
line per resource, or `"No resources available"`, with session failures
wrapped as a `"protocol"` `MCPError`. -/
def MCPClient.get_context (m : MCPState)
    (outcome : Except PyExc (List Resource)) : Except MCPError (Option String) :=
  if !m.connected || !m.hasSession then .ok none
  else
    match outcome with
    | .error e =>
        .error ⟨"protocol", "コンテキスト取得に失敗しました: " ++ e.pyStr⟩
    | .ok resources =>
        let contextParts := resources.map
          (fun r => "Resource: " ++ r.name ++ " (" ++ r.uri ++ ")")
        .ok (some (if contextParts.isEmpty then "No resources available"
                   else "\n".intercalate contextParts))

/-- Embeds `Application._format_tool_summary`: one line per tool (with a default
when the description is `None` or empty — Python `or`), or a placeholder
line when no tools are known. -/
def Application.formatToolSummary (tools : List Tool) : String :=
  if tools = [] then "（利用可能な MCP ツールはありません）"
  else
    "\n".intercalate (tools.map (fun t =>
      "- " ++ t.name ++ ": "
        ++ (match t.description with
            | some d => if d = "" then "説明が提供されていません" else d
            | none => "説明が提供されていません")))

/-- Embeds `Application._build_tool_decision_prompt`. -/
def Application.buildToolDecisionPrompt (tools : List Tool)
    (user_message : String) : String :=
  "あなたは Model Context Protocol に対応したアシスタントです。\n"
    ++ "以下の MCP ツールを最大 1 回まで利用してから、ユーザーの質問に回答できます。\n"
    ++ "必要なければツールを使わずに回答してください。\n\n"
    ++ "利用可能なツール一覧:\n" ++ Application.formatToolSummary tools ++ "\n\n"
    ++ "必ず次の JSON 形式で応答してください。\n"
    ++ "- ツールが不要な場合: \x7b\"action\": \"respond\", \"message\": \"<回答>\"\x7d\n"
    ++ "- ツールを使う場合: \x7b\"action\": \"call_tool\", \"tool\": \"<ツール名>\", \"arguments\": \x7b ... \x7d\x7d\n"
    ++ "SQL を実行する際は `execute_sql` を選び、arguments に `sql` キーを含めてください。\n"
    ++ "JSON 以外の文字や説明は含めないでください。\n\n"
    ++ "ユーザーからの依頼:\n" ++ user_message ++ "\n"

/-- The synthesis prompt built after a successful tool call. -/
def Application.buildFinalPrompt (message tool_name arguments_json
    tool_output : String) : String :=
  "以下はユーザーからの質問と、MCP ツールの実行結果です。"
    ++ "結果を踏まえてユーザーが理解しやすい最終回答を日本語で作成してください。\n\n"
    ++ "[ユーザーの質問]\n" ++ message ++ "\n\n"
    ++ "[使用したツール]\n" ++ tool_name ++ "\n"
    ++ "[ツール引数]\n" ++ arguments_json ++ "\n\n"
    ++ "[ツール結果]\n" ++ tool_output ++ "\n"

/-- The external interactions one `handle_user_message` run may perform, as
oracles: the outcome of the MCP `list_resources` call behind `get_context`,
the raw text outcome of the planning request, the behaviour of `json.loads`,
the per-invocation outcome of `session.call_tool`, and the outcomes of the
synthesis and plain-path `generate_content` calls. -/
structure Oracle where
  contextOutcome : Except PyExc (List Resource)
  planOutcome : Except PyExc String
  loads : String → Option JValue
  toolOutcome : String → Option JObject → Except PyExc CallToolResult
  synthOutcome : Except PyExc String
  plainOutcome : Except PyExc String

/-- The observable calls one run made: every Gemini `generate_content`
request (in order, with its persistence flag) and every `MCPClient.call_tool`
invocation (tool name and arguments). -/
structure Trace where
  sends : List SendEvent
  toolCalls : List (String × Option JObject)

/-- Embeds `Application` state: the optional clients and the tool snapshot. -/
structure AppState where
  gemini : Option GeminiState
  mcp : Option MCPState
  available_tools : List Tool

/-- The `RuntimeError` programming-error fault of `handle_user_message`. -/
inductive RuntimeFault where
  | runtimeError (msg : String)

/-- The `arguments` extraction of `_handle_with_tools`: `plan.get("arguments")`
kept only when it is a mapping; a missing key, JSON `null` (Python `None`)
and any non-dict value all end up as `None` (the non-dict case is logged and
discarded rather than failing). -/
def Application.planArguments (kvs : JObject) : Option JObject :=
  match kvs.lookup "arguments" with
  | some (.obj akvs) => some akvs
  | _ => none

/-- Claim-statement helper: the `tool` field of a `call_tool` plan is
unusable — missing, not a string, the empty string, or not among the known
tool names (the four rejection cases of `_handle_with_tools`). -/
def toolFieldInvalid (kvs : JObject) (tools : List Tool) : Prop :=
  match kvs.lookup "tool" with
  | some (.str t) => t = "" ∨ t ∉ tools.map Tool.name
  | some _ => True
  | none => True

/-- Embeds `Application._handle_with_tools` after its leading client checks (the
caller guarantees a Gemini client `g` and an MCP client `m` exist; the
remaining guards mirror the source).  Returns the optional answer, the
Gemini client state, and the trace of external calls. -/
def Application.handleWithToolsCore (g : GeminiState) (m : MCPState)
    (availableTools : List Tool) (o : Oracle) (message : String) :
    Option String × GeminiState × Trace :=
  if !m.connected then (none, g, ⟨[], []⟩)
  else if availableTools = [] then (none, g, ⟨[], []⟩)
  else
    let jr := GeminiClient.send_json g
      (Application.buildToolDecisionPrompt availableTools message) none
      o.planOutcome o.loads
    match jr.result with
    | .error _ => (none, jr.state, ⟨[jr.event], []⟩)
    | .ok plan =>
        match plan with
        | .obj kvs =>
            let action := kvs.lookup "action"
            if jEqStr action "respond" then
              match kvs.lookup "message" with
              | some (.str mt) =>
                  if pyStrip mt = "" then (none, jr.state, ⟨[jr.event], []⟩)
                  else (some mt, jr.state, ⟨[jr.event], []⟩)
              | _ => (none, jr.state, ⟨[jr.event], []⟩)
            else if jEqStr action "call_tool" then
              match kvs.lookup "tool" with
              | some (.str tn) =>
                  if tn = "" then (none, jr.state, ⟨[jr.event], []⟩)
                  else if tn ∉ availableTools.map Tool.name then
                    (none, jr.state, ⟨[jr.event], []⟩)
                  else
                    let args := Application.planArguments kvs
                    match MCPClient.call_tool m tn args (o.toolOutcome tn args) with
                    | .error _ => (none, jr.state, ⟨[jr.event], [(tn, args)]⟩)
                    | .ok toolResult =>
                        if toolResult.isError then
                          let errorText :=
                            if MCPClient.render_tool_result toolResult = "" then
                              "ツール実行でエラーが発生しました"
                            else MCPClient.render_tool_result toolResult
                          (some ("ツール " ++ tn ++ " の実行に失敗しました。詳細: "
                              ++ errorText),
                           jr.state, ⟨[jr.event], [(tn, args)]⟩)
                        else
                          let toolOutput := MCPClient.render_tool_result toolResult
                          let argumentsJson :=
                            JValue.dumpsCompact (.obj (args.getD .nil))
                          let sr := GeminiClient.send_message jr.state
                            (Application.buildFinalPrompt message tn argumentsJson
                              toolOutput)
                            none false o.synthOutcome
                          match sr.result with
                          | .error _ =>
                              (some (if toolOutput = "" then
                                  "ツールの結果を取得しましたが、Gemini の応答に失敗しました。"
                                else toolOutput),
                               sr.state, ⟨[jr.event, sr.event], [(tn, args)]⟩)
                          | .ok finalAnswer =>
                              (some finalAnswer, sr.state,
                               ⟨[jr.event, sr.event], [(tn, args)]⟩)
              | _ => (none, jr.state, ⟨[jr.event], []⟩)
            else (none, jr.state, ⟨[jr.event], []⟩)
        | _ => (none, jr.state, ⟨[jr.event], []⟩)

/-- The plain direct-answer path of `handle_user_message` together with the
surrounding top-level `except` clauses: send the message (persisting
history); any raised `GeminiError` is converted by
`ErrorHandler.handle_error(error, context="メッセージ処理中")` into its
`user_message`.  `tr` is the trace accumulated before this send. -/
def Application.plainPath (st : AppState) (g : GeminiState) (message : String)
    (context : Option String) (tr : Trace) (outcome : Except PyExc String) :
    Except RuntimeFault (String × AppState × Trace) :=
  let sr := GeminiClient.send_message g message context true outcome
  match sr.result with
  | .ok text =>
      .ok (text, { st with gemini := some sr.state },
           ⟨tr.sends ++ [sr.event], tr.toolCalls⟩)
  | .error e =>
      .ok ((ErrorHandler.handle_error e.toPyExc (some "メッセージ処理中")
              none).user_message,
           { st with gemini := some sr.state },
           ⟨tr.sends ++ [sr.event], tr.toolCalls⟩)

/-- The context fetch at the top of `handle_user_message` together with its
`except MCPError` clause: failures degrade to no context. -/
def Application.contextForMessage (m : MCPState) (o : Oracle) : Option String :=
  match MCPClient.get_context m o.contextOutcome with
  | .ok c => c
  | .error _ => none

/-- Embeds `Application.handle_user_message`: raise `RuntimeError` when the Gemini
client is not initialized; when the MCP client is present and connected,
fetch the auxiliary context (failures degrade to no context), try the
tool-assisted path, and return its answer when truthy; otherwise (and in
the no-MCP case) fall through to the plain path. -/
def Application.handle_user_message (st : AppState) (o : Oracle)
    (message : String) : Except RuntimeFault (String × AppState × Trace) :=
  match st.gemini with
  | none => .error (.runtimeError "Gemini クライアントが初期化されていません")
  | some g =>
      match st.mcp with
      | some m =>
          if m.connected then
            let context := Application.contextForMessage m o
            let tb := Application.handleWithToolsCore g m st.available_tools o
              message
            if pyTruthyOptStr tb.1 then
              .ok (tb.1.getD "", { st with gemini := some tb.2.1 }, tb.2.2)
            else
              Application.plainPath st tb.2.1 message context tb.2.2
                o.plainOutcome
          else Application.plainPath st g message none ⟨[], []⟩ o.plainOutcome
      | none => Application.plainPath st g message none ⟨[], []⟩ o.plainOutcome

/-- The answer of a run (`None` when the programming-error fault fired). -/
def runAnswer (r : Except RuntimeFault (String × AppState × Trace)) :
    Option String :=
  match r with
  | .ok (a, _, _) => some a
  | .error _ => none

/-- The trace of a run. -/
def runTrace (r : Except RuntimeFault (String × AppState × Trace)) : Trace :=
  match r with
  | .ok (_, _, tr) => tr
  | .error _ => ⟨[], []⟩

/-- The final application state of a run (unchanged on the fault). -/
def runState (st : AppState)
    (r : Except RuntimeFault (String × AppState × Trace)) : AppState :=
  match r with
  | .ok (_, st', _) => st'
  | .error _ => st

/- Concrete fixtures used by witnesses and counterexamples. -/

def sqlTool : Tool := ⟨"execute_sql", some "Execute a SQL statement"⟩

def g0 : GeminiState := ⟨[]⟩

def m0 : MCPState := ⟨true, true, none⟩

def st0 : AppState := ⟨some g0, some m0, [sqlTool]⟩

def bangExc : PyExc := ⟨false, false, "boom", "RuntimeError"⟩

/-- An oracle for one concrete run: the planning request yields the raw text
`"PLAN"`, which `json.loads` parses to `plan`; the tool invocation yields
`toolRes`; the synthesis call yields `synth`; the plain path answers
`"plain answer"`. -/
def planOracle (plan : JValue) (toolRes : Except PyExc CallToolResult)
    (synth : Except PyExc String) : Oracle :=
  { contextOutcome := .ok []
    planOutcome := .ok "PLAN"
    loads := fun s => if s = "PLAN" then some plan else none
    toolOutcome := fun _ _ => toolRes
    synthOutcome := synth
    plainOutcome := .ok "plain answer" }

def respondPlan (msg : String) : JValue :=
  .obj (.cons "action" (.str "respond") (.cons "message" (.str msg) .nil))

def callSqlPlan : JValue :=
  .obj (.cons "action" (.str "call_tool")
    (.cons "tool" (.str "execute_sql")
      (.cons "arguments"
        (.obj (.cons "sql" (.str "SELECT * FROM employees") .nil)) .nil)))

def unknownToolPlan : JValue :=
  .obj (.cons "action" (.str "call_tool")
    (.cons "tool" (.str "unknown_tool") .nil))

def badArgsPlan : JValue :=
  .obj (.cons "action" (.str "call_tool")
    (.cons "tool" (.str "execute_sql")
      (.cons "arguments" (.str "not a dict") .nil)))

def helloBlock : ContentBlock := ⟨some "hello", none, none, "TextContent"⟩

def helloResult : CallToolResult := ⟨false, none, [helloBlock]⟩

def errorResult : CallToolResult :=
  ⟨true, none, [⟨some "permission denied", none, none, "TextContent"⟩]⟩

def rowsResult : CallToolResult :=
  ⟨false, some (.cons "rows" (.num 1) .nil), []⟩

/- Helper lemmas shared by the claim theorems. -/

theorem strLenZero (s : String) (h : s.length = 0) : s = "" := by
  cases s with
  | mk data =>
    simp only [String.length] at h
    have : data = [] := List.length_eq_zero.mp h
    simp [this]

theorem strAppendNeEmpty (a b : String) (h : a ≠ "") : a ++ b ≠ "" := by
  intro he
  apply h
  apply strLenZero
  have hl := String.length_append a b
  rw [he] at hl
  simp at hl
  omega

theorem noPrefixEq (note s : String) (hn : note ≠ "") : note ++ s ≠ s := by
  intro he
  apply hn
  apply strLenZero
  have hl := String.length_append note s
  rw [he] at hl
  omega

theorem pyStripNeImpNe {s : String} (h : pyStrip s ≠ "") : s ≠ "" := by
  intro he
  subst he
  exact h rfl

theorem sendMessage_state_noPersist (g : GeminiState) (msg : String)
    (ctx : Option String) (out : Except PyExc String) :
    (GeminiClient.send_message g msg ctx false out).state = g := by
  cases out <;> rfl

theorem sendMessage_event_persist (g : GeminiState) (msg : String)
    (ctx : Option String) (p : Bool) (out : Except PyExc String) :
    (GeminiClient.send_message g msg ctx p out).event.persist = p := by
  cases out <;> rfl

theorem sendJson_state (g : GeminiState) (msg : String) (ctx : Option String)
    (out : Except PyExc String) (loads : String → Option JValue) :
    (GeminiClient.send_json g msg ctx out loads).state = g := by
  cases out with
  | error e => rfl
  | ok t =>
    unfold GeminiClient.send_json
    cases h : loads t <;> simp [GeminiClient.send_message, h]

theorem sendJson_event_persist (g : GeminiState) (msg : String)
    (ctx : Option String) (out : Except PyExc String)
    (loads : String → Option JValue) :
    (GeminiClient.send_json g msg ctx out loads).event.persist = false := by
  cases out with
  | error e => rfl
  | ok t =>
    unfold GeminiClient.send_json
    cases h : loads t <;> simp [GeminiClient.send_message, h]

/-- The tool-assisted path never touches the Gemini client state (its two
model calls are both issued without history persistence) and every model
call it records carries `persist = false`. -/
theorem handleWithToolsCore_frame (g : GeminiState) (m : MCPState)
    (tools : List Tool) (o : Oracle) (msg : String) :
    (Application.handleWithToolsCore g m tools o msg).2.1 = g ∧
    (∀ ev ∈ (Application.handleWithToolsCore g m tools o msg).2.2.sends,
      ev.persist = false) := by
  unfold Application.handleWithToolsCore
  split
  · exact ⟨rfl, by simp⟩
  split
  · exact ⟨rfl, by simp⟩
  have h1 := sendJson_state g (Application.buildToolDecisionPrompt tools msg)
    none o.planOutcome o.loads
  have h2 := sendJson_event_persist g
    (Application.buildToolDecisionPrompt tools msg) none o.planOutcome o.loads
  generalize GeminiClient.send_json g
      (Application.buildToolDecisionPrompt tools msg) none o.planOutcome
      o.loads = jr at h1 h2 ⊢
  obtain ⟨res, gs, ev⟩ := jr
  simp only at h1 h2
  subst h1
  cases res with
  | error e => exact ⟨rfl, by simp [h2]⟩
  | ok plan =>
    cases plan with
    | null => exact ⟨rfl, by simp [h2]⟩
    | bool b => exact ⟨rfl, by simp [h2]⟩
    | num n => exact ⟨rfl, by simp [h2]⟩
    | str s => exact ⟨rfl, by simp [h2]⟩
    | arr xs => exact ⟨rfl, by simp [h2]⟩
    | obj kvs =>
      dsimp only
      constructor
      · (repeat' split) <;> simp [sendMessage_state_noPersist]
      · (repeat' split) <;> simp [h2, sendMessage_event_persist]

theorem plainPath_ok (st : AppState) (g : GeminiState) (message : String)
    (context : Option String) (tr : Trace) (t : String) :
    Application.plainPath st g message context tr (.ok t) =
      .ok (t,
        { st with gemini := some ⟨g.history ++ [⟨"user", message⟩, ⟨"model", t⟩]⟩ },
        ⟨tr.sends ++ [⟨GeminiClient.fullMessage message context, true⟩],
         tr.toolCalls⟩) := rfl

theorem plainPath_error (st : AppState) (g : GeminiState) (message : String)
    (context : Option String) (tr : Trace) (e : PyExc) :
    Application.plainPath st g message context tr (.error e) =
      .ok ((ErrorHandler.handle_error (GeminiClient.wrapError e).toPyExc
              (some "メッセージ処理中") none).user_message,
           { st with gemini := some g },
           ⟨tr.sends ++ [⟨GeminiClient.fullMessage message context, true⟩],
            tr.toolCalls⟩) := rfl

theorem plainPath_isOk (st : AppState) (g : GeminiState) (message : String)
    (context : Option String) (tr : Trace) (outcome : Except PyExc String) :
    ∃ ans st' tr', Application.plainPath st g message context tr outcome
      = .ok (ans, st', tr') := by
  cases outcome with
  | ok t => exact ⟨_, _, _, plainPath_ok st g message context tr t⟩
  | error e => exact ⟨_, _, _, plainPath_error st g message context tr e⟩

/-- Reduces `handle_user_message` past the client checks in the
connected-MCP case. -/
theorem handle_reduce_connected (st : AppState) (o : Oracle) (message : String)
    (g : GeminiState) (m : MCPState) (tb : Option String × GeminiState × Trace)
    (hg : st.gemini = some g) (hm : st.mcp = some m)
    (hconn : m.connected = true)
    (htb : Application.handleWithToolsCore g m st.available_tools o message = tb) :
    Application.handle_user_message st o message =
      (if pyTruthyOptStr tb.1 then
        .ok (tb.1.getD "", { st with gemini := some tb.2.1 }, tb.2.2)
      else
        Application.plainPath st tb.2.1 message
          (Application.contextForMessage m o) tb.2.2 o.plainOutcome) := by
  unfold Application.handle_user_message
  rw [hg, hm]
  simp [hconn, htb]

/-- Reduces `handle_user_message` when the MCP client is present but not
connected. -/
theorem handle_reduce_notConnected (st : AppState) (o : Oracle)
    (message : String) (g : GeminiState) (m : MCPState)
    (hg : st.gemini = some g) (hm : st.mcp = some m)
    (hconn : m.connected = false) :
    Application.handle_user_message st o message =
      Application.plainPath st g message none ⟨[], []⟩ o.plainOutcome := by
  unfold Application.handle_user_message
  rw [hg, hm]
  simp [hconn]

/-- Reduces `handle_user_message` when no MCP client exists. -/
theorem handle_reduce_noMcp (st : AppState) (o : Oracle) (message : String)
    (g : GeminiState) (hg : st.gemini = some g) (hm : st.mcp = none) :
    Application.handle_user_message st o message =
      Application.plainPath st g message none ⟨[], []⟩ o.plainOutcome := by
  unfold Application.handle_user_message
  rw [hg, hm]

/-- Claim C1, counterexample: with the tool transport connected, one tool
known, and the plan `{"action":"respond","message":" "}` — whose message is a
non-empty string — `handle_user_message` does not return the plan's message:
the whitespace-only message fails the `strip()` truthiness test, the tool
path yields nothing, and the plain-path answer `"plain answer"` is returned
instead (`some "plain answer" ≠ some " "`). -/
theorem claimC1_counterexample :
    runAnswer (Application.handle_user_message st0
        (planOracle (respondPlan " ") (.error bangExc) (.ok "synth")) "q")
      = some "plain answer" ∧
    (" " : String) ≠ "" ∧
    runAnswer (Application.handle_user_message st0
        (planOracle (respondPlan " ") (.error bangExc) (.ok "synth")) "q")
      ≠ some " " := by
  refine ⟨rfl, by decide, ?_⟩
  intro h
  rw [show runAnswer (Application.handle_user_message st0
      (planOracle (respondPlan " ") (.error bangExc) (.ok "synth")) "q")
      = some "plain answer" from rfl] at h
  simp at h

/-- Claim C1 (amended): for every user message handled while the tool
transport is connected and at least one tool is known, if the planning step
returns a plan `{"action":"respond","message":M}` where `M` is a string
containing at least one non-whitespace character (`M.strip()` truthy — not
merely non-empty), then `MCPClient.call_tool` is never invoked and
`handle_user_message` returns exactly `M`. -/
theorem claimC1 (st : AppState) (o : Oracle) (g : GeminiState) (m : MCPState)
    (message raw M : String)
    (hg : st.gemini = some g) (hm : st.mcp = some m)
    (hconn : m.connected = true) (htools : st.available_tools ≠ [])
    (hplan : o.planOutcome = .ok raw)
    (hloads : o.loads raw = some (respondPlan M))
    (hM : pyStrip M ≠ "") :
    (runTrace (Application.handle_user_message st o message)).toolCalls = [] ∧
    runAnswer (Application.handle_user_message st o message) = some M := by
  have hcore : Application.handleWithToolsCore g m st.available_tools o message =
      (some M, g,
       ⟨[⟨Application.buildToolDecisionPrompt st.available_tools message, false⟩],
        []⟩) := by
    unfold Application.handleWithToolsCore GeminiClient.send_json
      GeminiClient.send_message
    simp [hconn, htools, hplan, hloads, respondPlan, JObject.lookup, jEqStr, hM,
      GeminiClient.fullMessage]
  have hMne : M ≠ "" := pyStripNeImpNe hM
  rw [handle_reduce_connected st o message g m _ hg hm hconn hcore]
  simp [pyTruthyOptStr, hMne, runTrace, runAnswer]

/-- Claim C1, witness: the concrete run with plan
`{"action":"respond","message":"hi"}` makes no tool call and answers
`"hi"`. -/
theorem claimC1_witness :
    (runTrace (Application.handle_user_message st0
        (planOracle (respondPlan "hi") (.error bangExc) (.ok "synth")) "q")).toolCalls
      = [] ∧
    runAnswer (Application.handle_user_message st0
        (planOracle (respondPlan "hi") (.error bangExc) (.ok "synth")) "q")
      = some "hi" :=
  claimC1 st0 (planOracle (respondPlan "hi") (.error bangExc) (.ok "synth"))
    g0 m0 "q" "PLAN" "hi" rfl rfl rfl (by simp [st0]) rfl rfl (by decide)

/-- Claim C2: for every input message, if the Gemini client is initialized
then `handle_user_message` returns a string — no `GeminiError`, `MCPError`
or other failure escapes; a failing plain-path model call is converted into
the `user_message` of `ErrorHandler.handle_error`; and if the Gemini client
is not initialized, a `RuntimeError` programming fault is raised instead of
returning. -/
theorem claimC2 (st : AppState) (o : Oracle) (message : String) :
    (st.gemini = none → Application.handle_user_message st o message
        = .error (.runtimeError "Gemini クライアントが初期化されていません")) ∧
    (∀ g, st.gemini = some g →
      ∃ ans st' tr', Application.handle_user_message st o message
        = .ok (ans, st', tr')) ∧
    (∀ g m e, st.gemini = some g → st.mcp = some m → m.connected = true →
      o.plainOutcome = .error e →
      pyTruthyOptStr
        (Application.handleWithToolsCore g m st.available_tools o message).1
        = false →
      runAnswer (Application.handle_user_message st o message)
        = some ((ErrorHandler.handle_error (GeminiClient.wrapError e).toPyExc
            (some "メッセージ処理中") none).user_message)) ∧
    (∀ g e, st.gemini = some g → st.mcp = none → o.plainOutcome = .error e →
      runAnswer (Application.handle_user_message st o message)
        = some ((ErrorHandler.handle_error (GeminiClient.wrapError e).toPyExc
            (some "メッセージ処理中") none).user_message)) := by
  refine ⟨?_, ?_, ?_, ?_⟩
  · intro h
    unfold Application.handle_user_message
    rw [h]
  · intro g hg
    cases hm : st.mcp with
    | none =>
      rw [handle_reduce_noMcp st o message g hg hm]
      exact plainPath_isOk st g message none ⟨[], []⟩ o.plainOutcome
    | some m =>
      cases hconn : m.connected with
      | false =>
        rw [handle_reduce_notConnected st o message g m hg hm hconn]
        exact plainPath_isOk st g message none ⟨[], []⟩ o.plainOutcome
      | true =>
        rw [handle_reduce_connected st o message g m _ hg hm hconn rfl]
        split
        · exact ⟨_, _, _, rfl⟩
        · exact plainPath_isOk _ _ _ _ _ _
  · intro g m e hg hm hconn hplain hfalse
    rw [handle_reduce_connected st o message g m _ hg hm hconn rfl]
    rw [if_neg (by simp [hfalse])]
    rw [hplain, plainPath_error]
    rfl
  · intro g e hg hm hplain
    rw [handle_reduce_noMcp st o message g hg hm]
    rw [hplain, plainPath_error]
    rfl

/-- Claim C2, witness: a concrete initialized run returns a result. -/
theorem claimC2_witness :
    ∃ ans st' tr', Application.handle_user_message st0
        (planOracle (respondPlan "hi") (.error bangExc) (.ok "synth")) "q"
      = .ok (ans, st', tr') :=
  (claimC2 st0 (planOracle (respondPlan "hi") (.error bangExc) (.ok "synth"))
    "q").2.1 g0 rfl

/-- Claim C3: for every plan `{"action":"call_tool","tool":T,...}` where `T`
is missing, not a string, empty, or unknown, `MCPClient.call_tool` is never
invoked and the tool-assisted path returns nothing, so the orchestrator
falls through to the plain direct-answer path; and when the plan's tool is
valid but `"arguments"` is present and not a mapping, the arguments are
discarded and the tool is still called with no arguments. -/
theorem claimC3 (st : AppState) (o : Oracle) (g : GeminiState) (m : MCPState)
    (message raw : String) (kvs : JObject)
    (hg : st.gemini = some g) (hm : st.mcp = some m)
    (hconn : m.connected = true) (htools : st.available_tools ≠ [])
    (hplan : o.planOutcome = .ok raw)
    (hloads : o.loads raw = some (.obj kvs))
    (haction : kvs.lookup "action" = some (.str "call_tool")) :
    (toolFieldInvalid kvs st.available_tools →
      (Application.handleWithToolsCore g m st.available_tools o message).1
        = none ∧
      (Application.handleWithToolsCore g m st.available_tools o
          message).2.2.toolCalls = [] ∧
      (∀ t, o.plainOutcome = .ok t →
        runAnswer (Application.handle_user_message st o message) = some t)) ∧
    (∀ T v, kvs.lookup "tool" = some (.str T) → T ≠ "" →
      T ∈ st.available_tools.map Tool.name →
      kvs.lookup "arguments" = some v → jIsDict v = false →
      (Application.handleWithToolsCore g m st.available_tools o
          message).2.2.toolCalls = [(T, none)]) := by
  constructor
  · intro hinv
    have hcore : Application.handleWithToolsCore g m st.available_tools o message
        = (none, g,
           ⟨[⟨Application.buildToolDecisionPrompt st.available_tools message,
              false⟩], []⟩) := by
      unfold Application.handleWithToolsCore GeminiClient.send_json
        GeminiClient.send_message
      unfold toolFieldInvalid at hinv
      cases htool : kvs.lookup "tool" with
      | none =>
        simp [hconn, htools, hplan, hloads, haction, jEqStr, htool,
          GeminiClient.fullMessage]
      | some v =>
        rw [htool] at hinv
        cases v with
        | str t =>
          rcases hinv with h | h
          · subst h
            simp [hconn, htools, hplan, hloads, haction, jEqStr, htool,
              GeminiClient.fullMessage]
          · simp [hconn, htools, hplan, hloads, haction, jEqStr, htool, h,
              GeminiClient.fullMessage]
        | null =>
          simp [hconn, htools, hplan, hloads, haction, jEqStr, htool,
            GeminiClient.fullMessage]
        | bool b =>
          simp [hconn, htools, hplan, hloads, haction, jEqStr, htool,
            GeminiClient.fullMessage]
        | num n =>
          simp [hconn, htools, hplan, hloads, haction, jEqStr, htool,
            GeminiClient.fullMessage]
        | arr xs =>
          simp [hconn, htools, hplan, hloads, haction, jEqStr, htool,
            GeminiClient.fullMessage]
        | obj okvs =>
          simp [hconn, htools, hplan, hloads, haction, jEqStr, htool,
            GeminiClient.fullMessage]
    refine ⟨by rw [hcore], by rw [hcore], ?_⟩
    intro t hpt
    rw [handle_reduce_connected st o message g m _ hg hm hconn hcore]
    simp only [pyTruthyOptStr, Bool.false_eq_true, if_false]
    rw [hpt, plainPath_ok]
    rfl
  · intro T v htool hT hmem hargs hnd
    have hargsNone : Application.planArguments kvs = none := by
      unfold Application.planArguments
      rw [hargs]
      cases v <;> simp_all [jIsDict]
    unfold Application.handleWithToolsCore GeminiClient.send_json
      GeminiClient.send_message
    simp only [hconn, Bool.not_true, Bool.false_eq_true, if_false, htools,
      if_neg htools, hplan, hloads, GeminiClient.fullMessage]
    simp only [haction, htool, jEqStr, hargsNone]
    simp only [decide_eq_true_eq, String.reduceEq, if_false, if_true,
      decide_True]
    rw [if_neg hT, if_neg (by simp [hmem])]
    (repeat' split) <;> rfl

/-- Claim C3, witness: a plan naming the unknown tool `"unknown_tool"` makes
no tool call and falls through to the plain answer, and a plan naming
`"execute_sql"` with non-mapping arguments calls the tool once with no
arguments. -/
theorem claimC3_witness :
    ((Application.handleWithToolsCore g0 m0 st0.available_tools
        (planOracle unknownToolPlan (.error bangExc) (.ok "synth")) "q").1
      = none ∧
     (Application.handleWithToolsCore g0 m0 st0.available_tools
        (planOracle unknownToolPlan (.error bangExc) (.ok "synth"))
        "q").2.2.toolCalls = [] ∧
     runAnswer (Application.handle_user_message st0
        (planOracle unknownToolPlan (.error bangExc) (.ok "synth")) "q")
      = some "plain answer") ∧
    (Application.handleWithToolsCore g0 m0 st0.available_tools
        (planOracle badArgsPlan (.ok helloResult) (.ok "synth"))
        "q").2.2.toolCalls = [("execute_sql", none)] := by
  constructor
  · have h := (claimC3 st0
        (planOracle unknownToolPlan (.error bangExc) (.ok "synth")) g0 m0
        "q" "PLAN"
        (.cons "action" (.str "call_tool")
          (.cons "tool" (.str "unknown_tool") .nil))
        rfl rfl rfl (by simp [st0]) rfl rfl rfl).1
      (Or.inr (by decide))
    exact ⟨h.1, h.2.1, h.2.2 "plain answer" rfl⟩
  · exact (claimC3 st0
        (planOracle badArgsPlan (.ok helloResult) (.ok "synth")) g0 m0
        "q" "PLAN"
        (.cons "action" (.str "call_tool")
          (.cons "tool" (.str "execute_sql")
            (.cons "arguments" (.str "not a dict") .nil)))
        rfl rfl rfl (by simp [st0]) rfl rfl rfl).2
      "execute_sql" (.str "not a dict") rfl (by decide) (by decide) rfl rfl

/-- Claim C4: for every tool invocation whose result has `isError = true`,
the tool-assisted path returns the fixed-format failure string — which
contains the invoked tool's name and the rendered error text — and no
synthesis call is made for that message (the single recorded model call is
the planning request); `handle_user_message` returns that failure string. -/
theorem claimC4 (st : AppState) (o : Oracle) (g : GeminiState) (m : MCPState)
    (message raw : String) (kvs : JObject) (tn : String) (r : CallToolResult)
    (hg : st.gemini = some g) (hm : st.mcp = some m)
    (hconn : m.connected = true) (hsess : m.hasSession = true)
    (htools : st.available_tools ≠ [])
    (hplan : o.planOutcome = .ok raw)
    (hloads : o.loads raw = some (.obj kvs))
    (haction : kvs.lookup "action" = some (.str "call_tool"))
    (htool : kvs.lookup "tool" = some (.str tn))
    (htn : tn ≠ "") (hmem : tn ∈ st.available_tools.map Tool.name)
    (hout : o.toolOutcome tn (Application.planArguments kvs) = .ok r)
    (hisErr : r.isError = true) :
    (Application.handleWithToolsCore g m st.available_tools o message).1
      = some ("ツール " ++ tn ++ " の実行に失敗しました。詳細: "
          ++ (if MCPClient.render_tool_result r = ""
              then "ツール実行でエラーが発生しました"
              else MCPClient.render_tool_result r)) ∧
    (∃ a b, (Application.handleWithToolsCore g m st.available_tools o
        message).1 = some (a ++ tn ++ b)) ∧
    (∃ a b, (Application.handleWithToolsCore g m st.available_tools o
        message).1 = some (a ++ MCPClient.render_tool_result r ++ b)) ∧
    (Application.handleWithToolsCore g m st.available_tools o
        message).2.2.sends.length = 1 ∧
    runAnswer (Application.handle_user_message st o message)
      = (Application.handleWithToolsCore g m st.available_tools o message).1 ∧
    (runTrace (Application.handle_user_message st o message)).sends.length
      = 1 := by
  have hcore : Application.handleWithToolsCore g m st.available_tools o message
      = (some ("ツール " ++ tn ++ " の実行に失敗しました。詳細: "
            ++ (if MCPClient.render_tool_result r = ""
                then "ツール実行でエラーが発生しました"
                else MCPClient.render_tool_result r)),
         g,
         ⟨[⟨Application.buildToolDecisionPrompt st.available_tools message,
            false⟩],
          [(tn, Application.planArguments kvs)]⟩) := by
    unfold Application.handleWithToolsCore GeminiClient.send_json
      GeminiClient.send_message MCPClient.call_tool
    simp [hconn, hsess, htools, hplan, hloads, haction, htool, htn, hmem,
      hout, hisErr, jEqStr, GeminiClient.fullMessage]
  have hne : ("ツール " ++ tn ++ " の実行に失敗しました。詳細: "
      ++ (if MCPClient.render_tool_result r = ""
          then "ツール実行でエラーが発生しました"
          else MCPClient.render_tool_result r)) ≠ "" :=
    strAppendNeEmpty "ツール " _ (by decide)
  refine ⟨by rw [hcore], ?_, ?_, by rw [hcore]; rfl, ?_, ?_⟩
  · refine ⟨"ツール ", " の実行に失敗しました。詳細: "
      ++ (if MCPClient.render_tool_result r = ""
          then "ツール実行でエラーが発生しました"
          else MCPClient.render_tool_result r), ?_⟩
    rw [hcore]
    simp [String.append_assoc]
  · by_cases hr : MCPClient.render_tool_result r = ""
    · refine ⟨"ツール " ++ tn ++ " の実行に失敗しました。詳細: "
          ++ "ツール実行でエラーが発生しました", "", ?_⟩
      rw [hcore]
      simp [hr, String.append_empty, String.append_assoc]
    · refine ⟨"ツール " ++ tn ++ " の実行に失敗しました。詳細: ", "", ?_⟩
      rw [hcore]
      simp [hr, String.append_empty, String.append_assoc]
  · rw [handle_reduce_connected st o message g m _ hg hm hconn hcore]
    rw [if_pos (by simp [pyTruthyOptStr, hne])]
    rw [hcore]
    rfl
  · rw [handle_reduce_connected st o message g m _ hg hm hconn hcore]
    rw [if_pos (by simp [pyTruthyOptStr, hne])]
    rfl

/-- Claim C4, witness: the concrete `execute_sql` run whose result has
`isError = true` yields the failure string naming the tool and the rendered
error, with exactly one model call. -/
theorem claimC4_witness :
    (Application.handleWithToolsCore g0 m0 st0.available_tools
        (planOracle callSqlPlan (.ok errorResult) (.ok "synth")) "q").1
      = some ("ツール " ++ "execute_sql" ++ " の実行に失敗しました。詳細: "
          ++ (if MCPClient.render_tool_result errorResult = ""
              then "ツール実行でエラーが発生しました"
              else MCPClient.render_tool_result errorResult)) ∧
    (Application.handleWithToolsCore g0 m0 st0.available_tools
        (planOracle callSqlPlan (.ok errorResult) (.ok "synth"))
        "q").2.2.sends.length = 1 := by
  have h := claimC4 st0
    (planOracle callSqlPlan (.ok errorResult) (.ok "synth")) g0 m0 "q" "PLAN"
    (.cons "action" (.str "call_tool")
      (.cons "tool" (.str "execute_sql")
        (.cons "arguments"
          (.obj (.cons "sql" (.str "SELECT * FROM employees") .nil)) .nil)))
    "execute_sql" errorResult rfl rfl rfl rfl (by simp [st0]) rfl rfl rfl rfl
    (by decide) (by decide) rfl rfl
  exact ⟨h.1, h.2.2.2.1⟩

/-- Claim C5, counterexample: a successful `execute_sql` invocation renders
to `"hello"`; when the synthesis call then fails, `handle_user_message`
returns exactly the raw rendered output `"hello"` — there is no non-empty
explanatory note prefixed to it, contradicting the claim that the output is
returned "prefixed with an explanatory note". -/
theorem claimC5_counterexample :
    runAnswer (Application.handle_user_message st0
        (planOracle callSqlPlan (.ok helloResult) (.error bangExc)) "q")
      = some (MCPClient.render_tool_result helloResult) ∧
    MCPClient.render_tool_result helloResult = "hello" ∧
    ¬ ∃ note : String, note ≠ "" ∧
        runAnswer (Application.handle_user_message st0
            (planOracle callSqlPlan (.ok helloResult) (.error bangExc)) "q")
          = some (note ++ MCPClient.render_tool_result helloResult) := by
  refine ⟨rfl, rfl, ?_⟩
  rintro ⟨note, hn, h⟩
  rw [show runAnswer (Application.handle_user_message st0
      (planOracle callSqlPlan (.ok helloResult) (.error bangExc)) "q")
      = some "hello" from rfl,
    show MCPClient.render_tool_result helloResult = "hello" from rfl] at h
  exact noPrefixEq note "hello" hn (Option.some.inj h).symm

/-- Claim C5 (amended): for every successful tool invocation whose
subsequent synthesis call fails, the tool-assisted path returns the raw
rendered tool output unchanged when it is non-empty, and a fixed
explanatory note instead when the rendered output is empty — the tool
result is not lost, but no note is prefixed to a non-empty output;
`handle_user_message` returns the same string. -/
theorem claimC5 (st : AppState) (o : Oracle) (g : GeminiState) (m : MCPState)
    (message raw : String) (kvs : JObject) (tn : String) (r : CallToolResult)
    (e : PyExc)
    (hg : st.gemini = some g) (hm : st.mcp = some m)
    (hconn : m.connected = true) (hsess : m.hasSession = true)
    (htools : st.available_tools ≠ [])
    (hplan : o.planOutcome = .ok raw)
    (hloads : o.loads raw = some (.obj kvs))
    (haction : kvs.lookup "action" = some (.str "call_tool"))
    (htool : kvs.lookup "tool" = some (.str tn))
    (htn : tn ≠ "") (hmem : tn ∈ st.available_tools.map Tool.name)
    (hout : o.toolOutcome tn (Application.planArguments kvs) = .ok r)
    (hnoErr : r.isError = false)
    (hsynth : o.synthOutcome = .error e) :
    (Application.handleWithToolsCore g m st.available_tools o message).1
      = some (if MCPClient.render_tool_result r = ""
          then "ツールの結果を取得しましたが、Gemini の応答に失敗しました。"
          else MCPClient.render_tool_result r) ∧
    runAnswer (Application.handle_user_message st o message)
      = (Application.handleWithToolsCore g m st.available_tools o message).1 := by
  have hcore1 : (Application.handleWithToolsCore g m st.available_tools o
      message).1
      = some (if MCPClient.render_tool_result r = ""
          then "ツールの結果を取得しましたが、Gemini の応答に失敗しました。"
          else MCPClient.render_tool_result r) := by
    unfold Application.handleWithToolsCore GeminiClient.send_json
      GeminiClient.send_message MCPClient.call_tool
    simp [hconn, hsess, htools, hplan, hloads, haction, htool, htn, hmem,
      hout, hnoErr, hsynth, jEqStr, GeminiClient.fullMessage]
  have hne : (if MCPClient.render_tool_result r = ""
      then "ツールの結果を取得しましたが、Gemini の応答に失敗しました。"
      else MCPClient.render_tool_result r) ≠ "" := by
    split
    · decide
    · assumption
  refine ⟨hcore1, ?_⟩
  rw [handle_reduce_connected st o message g m _ hg hm hconn rfl]
  rw [if_pos (by simp [pyTruthyOptStr, hcore1, hne])]
  rw [hcore1]
  rfl

/-- Claim C5, witness: the concrete run with rendered output `"hello"` and a
failing synthesis call returns `"hello"` unchanged. -/
theorem claimC5_witness :
    (Application.handleWithToolsCore g0 m0 st0.available_tools
        (planOracle callSqlPlan (.ok helloResult) (.error bangExc)) "q").1
      = some (if MCPClient.render_tool_result helloResult = ""
          then "ツールの結果を取得しましたが、Gemini の応答に失敗しました。"
          else MCPClient.render_tool_result helloResult) :=
  (claimC5 st0 (planOracle callSqlPlan (.ok helloResult) (.error bangExc))
    g0 m0 "q" "PLAN"
    (.cons "action" (.str "call_tool")
      (.cons "tool" (.str "execute_sql")
        (.cons "arguments"
          (.obj (.cons "sql" (.str "SELECT * FROM employees") .nil)) .nil)))
    "execute_sql" helloResult bangExc rfl rfl rfl rfl (by simp [st0]) rfl rfl
    rfl rfl (by decide) (by decide) rfl rfl rfl).1

/-- Claim C6: `render_tool_result` concatenates the pretty-printed
structured content first (when present and truthy), then one piece per
content block — the block's text when truthy, else the binary redaction
placeholder, else (with no `data`) the stringified resource reference, else
the stringified fallback — joining the non-empty pieces with newlines; in
particular a result whose only payload is structured content `{"rows":1}`
renders to a string containing `"rows"`, and a result with a single text
block `"hello"` and no structured content renders to exactly `"hello"`. -/
theorem claimC6 :
    (∀ (r : CallToolResult) (kvs : JObject), r.structuredContent = some kvs →
      kvs.isEmpty = false →
      MCPClient.render_tool_result r
        = "\n".intercalate ((JValue.dumpsIndent 0 (.obj kvs)
              :: r.content.map MCPClient.renderBlock).filter
            (fun p => !(p == "")))) ∧
    (∀ r : CallToolResult, r.structuredContent = none →
      MCPClient.render_tool_result r
        = "\n".intercalate ((r.content.map MCPClient.renderBlock).filter
            (fun p => !(p == "")))) ∧
    (∀ (b : ContentBlock) (t : String), b.text = some t → t ≠ "" →
      MCPClient.renderBlock b = t) ∧
    (∀ b : ContentBlock, pyTruthyOptStr b.text = false →
      b.data = some .binary →
      MCPClient.renderBlock b = "<binary data omitted>") ∧
    (∀ (b : ContentBlock) (rs : String), pyTruthyOptStr b.text = false →
      b.data = none → b.resource = some rs → MCPClient.renderBlock b = rs) ∧
    (∀ b : ContentBlock, pyTruthyOptStr b.text = false → b.data = none →
      b.resource = none → MCPClient.renderBlock b = b.asStr) ∧
    (∃ a b, MCPClient.render_tool_result rowsResult = a ++ "rows" ++ b) ∧
    MCPClient.render_tool_result helloResult = "hello" := by
  refine ⟨?_, ?_, ?_, ?_, ?_, ?_, ?_, rfl⟩
  · intro r kvs h1 h2
    unfold MCPClient.render_tool_result MCPClient.structuredParts
    rw [h1]
    simp [h2]
  · intro r h1
    unfold MCPClient.render_tool_result MCPClient.structuredParts
    rw [h1]
    simp
  · intro b t ht htne
    unfold MCPClient.renderBlock
    rw [ht]
    simp [htne]
  · intro b ht hd
    unfold MCPClient.renderBlock MCPClient.renderBlockRest
    cases hb : b.text with
    | none => rw [hd]
    | some t =>
      rw [hb] at ht
      simp only [pyTruthyOptStr, Bool.not_eq_false'] at ht
      have : t = "" := by simpa using ht
      subst this
      simp [hd]
  · intro b rs ht hd hr
    unfold MCPClient.renderBlock MCPClient.renderBlockRest
      MCPClient.renderBlockTail
    cases hb : b.text with
    | none => rw [hd, hr]
    | some t =>
      rw [hb] at ht
      simp only [pyTruthyOptStr, Bool.not_eq_false'] at ht
      have : t = "" := by simpa using ht
      subst this
      simp [hd, hr]
  · intro b ht hd hr
    unfold MCPClient.renderBlock MCPClient.renderBlockRest
      MCPClient.renderBlockTail
    cases hb : b.text with
    | none => rw [hd, hr]
    | some t =>
      rw [hb] at ht
      simp only [pyTruthyOptStr, Bool.not_eq_false'] at ht
      have : t = "" := by simpa using ht
      subst this
      simp [hd, hr]
  · exact ⟨"\x7b\n  \"", "\": 1\n\x7d", by rfl⟩

/-- Claim C6, witness: a text block renders to its text, a binary block to
the redaction placeholder, and the `{"rows":1}` structured result renders
as the pretty-printed structured content alone. -/
theorem claimC6_witness :
    MCPClient.renderBlock helloBlock = "hello" ∧
    MCPClient.renderBlock ⟨none, some .binary, none, "ImageContent"⟩
      = "<binary data omitted>" ∧
    MCPClient.render_tool_result rowsResult
      = "\n".intercalate ((JValue.dumpsIndent 0
            (.obj (.cons "rows" (.num 1) .nil))
          :: ([] : List ContentBlock).map MCPClient.renderBlock).filter
          (fun p => !(p == ""))) :=
  ⟨claimC6.2.2.1 helloBlock "hello" rfl (by decide),
   claimC6.2.2.2.1 ⟨none, some .binary, none, "ImageContent"⟩ rfl rfl,
   claimC6.1 rowsResult (.cons "rows" (.num 1) .nil) rfl rfl⟩

/-- Claim C7: on a connected client with an empty cache, calling
`list_tools` twice without `force_refresh` issues exactly one underlying
transport call (the second call is served from the cache and returns an
equal list — its own transport outcome `r2` is never consulted), and a
subsequent call with `force_refresh = true` issues a second underlying
call. -/
theorem claimC7 (m : MCPState) (ts ts2 : List Tool)
    (r2 : Except PyExc (List Tool))
    (hc : m.connected = true) (hs : m.hasSession = true)
    (hcache : m.tool_cache = none) :
    (MCPClient.list_tools m false (.ok ts)).transportCalls = 1 ∧
    (MCPClient.list_tools m false (.ok ts)).result = .ok ts ∧
    (MCPClient.list_tools (MCPClient.list_tools m false (.ok ts)).state false
        r2).transportCalls = 0 ∧
    (MCPClient.list_tools (MCPClient.list_tools m false (.ok ts)).state false
        r2).result = (MCPClient.list_tools m false (.ok ts)).result ∧
    (MCPClient.list_tools (MCPClient.list_tools (MCPClient.list_tools m false
        (.ok ts)).state false r2).state true (.ok ts2)).transportCalls = 1 ∧
    (MCPClient.list_tools (MCPClient.list_tools (MCPClient.list_tools m false
        (.ok ts)).state false r2).state true (.ok ts2)).result
      = .ok ts2 := by
  have h1 : MCPClient.list_tools m false (.ok ts)
      = ⟨.ok ts, { m with tool_cache := some ts }, 1⟩ := by
    unfold MCPClient.list_tools
    simp [hc, hs, hcache]
  have h2 : MCPClient.list_tools { m with tool_cache := some ts } false r2
      = ⟨.ok ts, { m with tool_cache := some ts }, 0⟩ := by
    unfold MCPClient.list_tools
    simp [hc, hs]
  have h3 : MCPClient.list_tools { m with tool_cache := some ts } true
      (.ok ts2) = ⟨.ok ts2, { m with tool_cache := some ts2 }, 1⟩ := by
    unfold MCPClient.list_tools
    simp [hc, hs]
  rw [h1]
  dsimp only
  rw [h2]
  dsimp only
  rw [h3]
  exact ⟨rfl, rfl, rfl, rfl, rfl, rfl⟩

/-- Claim C7, witness: the concrete connected client issues one transport
call, then serves the second request from the cache. -/
theorem claimC7_witness :
    (MCPClient.list_tools m0 false (.ok [sqlTool])).transportCalls = 1 ∧
    (MCPClient.list_tools (MCPClient.list_tools m0 false
        (.ok [sqlTool])).state false (.error bangExc)).transportCalls = 0 ∧
    (MCPClient.list_tools (MCPClient.list_tools m0 false
        (.ok [sqlTool])).state false (.error bangExc)).result
      = (MCPClient.list_tools m0 false (.ok [sqlTool])).result := by
  have h := claimC7 m0 [sqlTool] [sqlTool] (.error bangExc) rfl rfl rfl
  exact ⟨h.1, h.2.2.1, h.2.2.2.1⟩

/-- Claim C8: the conversation history is modified only by the plain-path
send — the tool-assisted path returns the Gemini state unchanged and every
model call it records is issued with history persistence disabled; at the
top level the final history either equals the initial history or extends it
with exactly the user message and the plain-path response. -/
theorem claimC8 (st : AppState) (o : Oracle) (message : String) :
    (∀ g m tools,
      (Application.handleWithToolsCore g m tools o message).2.1 = g ∧
      ∀ ev ∈ (Application.handleWithToolsCore g m tools o message).2.2.sends,
        ev.persist = false) ∧
    (∀ g ans st' tr, st.gemini = some g →
      Application.handle_user_message st o message = .ok (ans, st', tr) →
      ∃ g', st'.gemini = some g' ∧
        (g'.history = g.history ∨
         ∃ t, o.plainOutcome = .ok t ∧
           g'.history = g.history ++ [⟨"user", message⟩, ⟨"model", t⟩])) := by
  constructor
  · intro g m tools
    exact handleWithToolsCore_frame g m tools o message
  · intro g ans st' tr hg heq
    cases hm : st.mcp with
    | none =>
      rw [handle_reduce_noMcp st o message g hg hm] at heq
      cases hp : o.plainOutcome with
      | ok t =>
        rw [hp, plainPath_ok] at heq
        simp only [Except.ok.injEq, Prod.mk.injEq] at heq
        obtain ⟨h1, h2, h3⟩ := heq
        subst h2
        exact ⟨_, rfl, Or.inr ⟨t, rfl, rfl⟩⟩
      | error e =>
        rw [hp, plainPath_error] at heq
        simp only [Except.ok.injEq, Prod.mk.injEq] at heq
        obtain ⟨h1, h2, h3⟩ := heq
        subst h2
        exact ⟨g, rfl, Or.inl rfl⟩
    | some m =>
      cases hconn : m.connected with
      | false =>
        rw [handle_reduce_notConnected st o message g m hg hm hconn] at heq
        cases hp : o.plainOutcome with
        | ok t =>
          rw [hp, plainPath_ok] at heq
          simp only [Except.ok.injEq, Prod.mk.injEq] at heq
          obtain ⟨h1, h2, h3⟩ := heq
          subst h2
          exact ⟨_, rfl, Or.inr ⟨t, rfl, rfl⟩⟩
        | error e =>
          rw [hp, plainPath_error] at heq
          simp only [Except.ok.injEq, Prod.mk.injEq] at heq
          obtain ⟨h1, h2, h3⟩ := heq
          subst h2
          exact ⟨g, rfl, Or.inl rfl⟩
      | true =>
        have hframe := handleWithToolsCore_frame g m st.available_tools o
          message
        rw [handle_reduce_connected st o message g m _ hg hm hconn rfl] at heq
        by_cases htb : pyTruthyOptStr
            (Application.handleWithToolsCore g m st.available_tools o
              message).1 = true
        · rw [if_pos htb] at heq
          simp only [Except.ok.injEq, Prod.mk.injEq] at heq
          obtain ⟨h1, h2, h3⟩ := heq
          subst h2
          exact ⟨_, rfl, Or.inl (by rw [hframe.1])⟩
        · rw [if_neg htb] at heq
          rw [hframe.1] at heq
          cases hp : o.plainOutcome with
          | ok t =>
            rw [hp, plainPath_ok] at heq
            simp only [Except.ok.injEq, Prod.mk.injEq] at heq
            obtain ⟨h1, h2, h3⟩ := heq
            subst h2
            exact ⟨_, rfl, Or.inr ⟨t, rfl, rfl⟩⟩
          | error e =>
            rw [hp, plainPath_error] at heq
            simp only [Except.ok.injEq, Prod.mk.injEq] at heq
            obtain ⟨h1, h2, h3⟩ := heq
            subst h2
            exact ⟨g, rfl, Or.inl rfl⟩

/-- Claim C8, witness: a concrete run answered by the tool path leaves the
history unchanged. -/
theorem claimC8_witness :
    ∃ g', (runState st0 (Application.handle_user_message st0
        (planOracle (respondPlan "hi") (.error bangExc) (.ok "synth"))
        "q")).gemini = some g' ∧
      (g'.history = g0.history ∨
       ∃ t, (planOracle (respondPlan "hi") (.error bangExc)
              (.ok "synth")).plainOutcome = .ok t ∧
         g'.history = g0.history ++ [⟨"user", "q"⟩, ⟨"model", t⟩]) :=
  (claimC8 st0 (planOracle (respondPlan "hi") (.error bangExc) (.ok "synth"))
      "q").2 g0 "hi"
    (runState st0 (Application.handle_user_message st0
      (planOracle (respondPlan "hi") (.error bangExc) (.ok "synth")) "q"))
    (runTrace (Application.handle_user_message st0
      (planOracle (respondPlan "hi") (.error bangExc) (.ok "synth")) "q"))
    rfl rfl

/-- Claim C9, counterexample: a `GeminiError` of category `"network"` and an
`MCPError` of category `"tool"` — errors the claim says are recoverable —
are both judged non-recoverable by `ErrorHandler.is_recoverable` (their
dataclass `str()` is empty, so no substring pattern matches and they are not
`ConnectionError`/`TimeoutError` instances). -/
theorem claimC9_counterexample :
    ErrorHandler.is_recoverable
        (GeminiError.toPyExc ⟨"network", "ネットワーク接続に失敗しました"⟩)
      = false ∧
    ErrorHandler.is_recoverable
        (MCPError.toPyExc ⟨"tool", "ツール execute_sql の実行に失敗しました: boom"⟩)
      = false ∧
    ("network" : String) ≠ "auth" ∧ ("tool" : String) ≠ "auth" :=
  ⟨rfl, rfl, by decide, by decide⟩

/-- Claim C9 (amended): `is_recoverable` decides on the exception's class
and `str()` rendering, not on the transport error categories: it returns
`false` whenever the string carries an auth marker (`401`/`403`/
`Unauthorized`/`Forbidden`, taking precedence over everything), `true` for
`ConnectionError`/`TimeoutError` instances and for strings carrying a
rate-limit marker or `"MCP"`, and `false` otherwise; since `GeminiError`
and `MCPError` stringify to the empty string, every transport-produced
error — auth, network, rate-limit, protocol and tool alike — is judged
non-recoverable. -/
theorem claimC9 :
    (∀ e : GeminiError, ErrorHandler.is_recoverable e.toPyExc = false) ∧
    (∀ e : MCPError, ErrorHandler.is_recoverable e.toPyExc = false) ∧
    (∀ p : PyExc, authMarkers p.pyStr = true →
      ErrorHandler.is_recoverable p = false) ∧
    (∀ p : PyExc, authMarkers p.pyStr = false →
      (p.isConnectionError || p.isTimeoutError) = true →
      ErrorHandler.is_recoverable p = true) ∧
    (∀ p : PyExc, authMarkers p.pyStr = false →
      rateLimitMarkers p.pyStr = true →
      ErrorHandler.is_recoverable p = true) ∧
    (∀ p : PyExc, authMarkers p.pyStr = false →
      strContains p.pyStr "MCP" = true →
      ErrorHandler.is_recoverable p = true) := by
  refine ⟨fun e => rfl, fun e => rfl, ?_, ?_, ?_, ?_⟩
  · intro p h
    simp [ErrorHandler.is_recoverable, h]
  · intro p h1 h2
    simp [ErrorHandler.is_recoverable, h1, h2]
  · intro p h1 h2
    simp [ErrorHandler.is_recoverable, h1, h2]
  · intro p h1 h2
    simp [ErrorHandler.is_recoverable, h1, h2]

/-- Claim C9, witness: a rate-limit-tagged `GeminiError` is judged
non-recoverable; a genuine `ConnectionError` instance is recoverable; an
exception whose string carries `401` is non-recoverable. -/
theorem claimC9_witness :
    ErrorHandler.is_recoverable
        (GeminiError.toPyExc ⟨"rate_limit", "API のレート制限に達しました"⟩)
      = false ∧
    ErrorHandler.is_recoverable
        ⟨true, false, "Connection refused", "ConnectionError"⟩ = true ∧
    ErrorHandler.is_recoverable
        ⟨false, false, "401 Unauthorized", "Exception"⟩ = false :=
  ⟨claimC9.1 ⟨"rate_limit", "API のレート制限に達しました"⟩,
   claimC9.2.2.2.1 ⟨true, false, "Connection refused", "ConnectionError"⟩
     (by decide) (by decide),
   claimC9.2.2.1 ⟨false, false, "401 Unauthorized", "Exception"⟩ (by decide)⟩

/-- Claim C10: `list_tools` on a client that is not connected (or whose
session is absent) returns the empty list without raising and without
touching the transport — it does not report the protocol-error kind used for
in-connection failures. -/
theorem claimC10 (m : MCPState) (force : Bool)
    (out : Except PyExc (List Tool))
    (h : m.connected = false ∨ m.hasSession = false) :
    MCPClient.list_tools m force out = ⟨.ok [], m, 0⟩ := by
  unfold MCPClient.list_tools
  rcases h with h | h <;> simp [h]

/-- Claim C10, witness: the disconnected client returns the empty list even
when the (never-consulted) transport would fail. -/
theorem claimC10_witness :
    MCPClient.list_tools ⟨false, false, none⟩ false (.error bangExc)
      = ⟨.ok [], ⟨false, false, none⟩, 0⟩ :=
  claimC10 ⟨false, false, none⟩ false (.error bangExc) (Or.inl rfl)

end GeminiMCP
